import Mathlib

/-!
Verification development for the bird-tag frontend repository.

The repository contains two parallel client implementations:
  * src/birdtag       with services/websocket.js and utils/api.js
  * the services imported by src/bird-tag views (ApiService, AuthService,
    WebSocketService, found under src/unnamed/part_001) and the views
    themselves (DashboardView.vue, the upload view in src/unnamed/part_005).

The definitions below are shallow embeddings of those JavaScript functions:
JavaScript objects become association lists over a small value type,
stateful services become explicit record states with one Lean function per
JavaScript method or event handler, and thrown exceptions become Except.
-/

namespace BirdTag

/-! ## JavaScript value and object model

A JavaScript object is modelled as an association list from property names
to values; property lookup returns the first binding, matching the fact
that a real object holds at most one binding per key.  The spread
expression `\x7b...old, ...new\x7d` keeps the keys of `old` in place (with
the value from `new` where `new` also binds the key) and then appends the
keys that occur only in `new`, in their order in `new`.
-/

inductive JsVal : Type where
  | str : String → JsVal
  | num : Int → JsVal
  deriving DecidableEq, Repr

abbrev JsObj := List (String × JsVal)

/-- Property lookup `o[k]`: first binding wins, absent key is `none`
(JavaScript `undefined`). -/
def getObj {V : Type} : List (String × V) → String → Option V
  | [], _ => none
  | p :: rest, k => if p.1 = k then some p.2 else getObj rest k

/-- The object-spread merge `\x7b...old, ...new\x7d`. -/
def objMerge {V : Type} (old new : List (String × V)) : List (String × V) :=
  old.map (fun p => (p.1, (getObj new p.1).getD p.2))
  ++ new.filter (fun q => old.all (fun p => !decide (p.1 = q.1)))

theorem getObj_append {V : Type} (l1 l2 : List (String × V)) (k : String) :
    getObj (l1 ++ l2) k = (getObj l1 k).or (getObj l2 k) := by
  induction l1 with
  | nil => simp [getObj, Option.or]
  | cons p rest ih =>
    by_cases h : p.1 = k
    · simp [getObj, h, Option.or]
    · simp [getObj, h, ih]

theorem getObj_eq_none_iff {V : Type} (l : List (String × V)) (k : String) :
    getObj l k = none ↔ ∀ p ∈ l, p.1 ≠ k := by
  induction l with
  | nil => simp [getObj]
  | cons p rest ih =>
    by_cases h : p.1 = k
    · simp [getObj, h]
    · simp [getObj, h, ih]

theorem getObj_mem_ne_none {V : Type} {l : List (String × V)} {p : String × V}
    (hp : p ∈ l) : getObj l p.1 ≠ none := by
  intro hnone
  exact ((getObj_eq_none_iff l p.1).mp hnone) p hp rfl

theorem getObj_map_merge {V : Type} (old new : List (String × V)) (k : String) :
    getObj (old.map (fun p => (p.1, (getObj new p.1).getD p.2))) k
      = (getObj old k).map (fun v => (getObj new k).getD v) := by
  induction old with
  | nil => simp [getObj]
  | cons p rest ih =>
    by_cases h : p.1 = k
    · subst h; simp [getObj, ih]
    · simp [getObj, h, ih]

theorem all_keys_ne_iff {V : Type} (l : List (String × V)) (k : String) :
    (l.all (fun p => !decide (p.1 = k))) = true ↔ getObj l k = none := by
  rw [List.all_eq_true, getObj_eq_none_iff]
  constructor
  · intro h p hp
    have := h p hp
    simpa using this
  · intro h p hp
    simpa using h p hp

theorem getObj_filter_merge {V : Type} (old new : List (String × V)) (k : String) :
    getObj (new.filter (fun q => old.all (fun p => !decide (p.1 = q.1)))) k
      = match getObj old k with
        | none => getObj new k
        | some _ => none := by
  induction new with
  | nil => cases getObj old k <;> simp [getObj]
  | cons q rest ih =>
    simp only [List.filter_cons]
    cases hall : old.all (fun p => !decide (p.1 = q.1)) with
    | true =>
      have hnone : getObj old q.1 = none := (all_keys_ne_iff old q.1).mp hall
      by_cases hq : q.1 = k
      · subst hq
        rw [hnone]
        simp [getObj]
      · simp only [if_true, getObj, hq, if_false, ih]
    | false =>
      have hne : getObj old q.1 ≠ none := by
        intro h
        have := (all_keys_ne_iff old q.1).mpr h
        rw [hall] at this
        exact Bool.false_ne_true this
      simp only [Bool.false_eq_true, if_false, ih]
      by_cases hq : q.1 = k
      · subst hq
        cases ho : getObj old q.1 with
        | none => exact absurd ho hne
        | some v => rfl
      · cases ho : getObj old k with
        | none => simp [getObj, hq]
        | some v => rfl

/-- Lookup in a spread merge: the `new` binding wins, else the `old` one. -/
theorem getObj_objMerge {V : Type} (old new : List (String × V)) (k : String) :
    getObj (objMerge old new) k = (getObj new k).or (getObj old k) := by
  unfold objMerge
  rw [getObj_append, getObj_map_merge, getObj_filter_merge]
  cases ho : getObj old k with
  | none => cases hn : getObj new k <;> simp [Option.or]
  | some v =>
    cases hn : getObj new k <;> simp [Option.or]

theorem map_eq_self_of {α : Type} {l : List α} {f : α → α}
    (h : ∀ a ∈ l, f a = a) : l.map f = l := by
  induction l with
  | nil => rfl
  | cons a rest ih =>
    simp only [List.map_cons]
    rw [h a (List.mem_cons_self a rest), ih (fun b hb => h b (List.mem_cons_of_mem a hb))]

theorem filter_eq_nil_of {α : Type} {l : List α} {p : α → Bool}
    (h : ∀ a ∈ l, p a = false) : l.filter p = [] := by
  induction l with
  | nil => rfl
  | cons a rest ih =>
    rw [List.filter_cons, h a (List.mem_cons_self a rest)]
    exact ih (fun b hb => h b (List.mem_cons_of_mem a hb))

theorem getObj_of_nodup {V : Type} {l : List (String × V)} {p : String × V}
    (hnd : (l.map Prod.fst).Nodup) (hp : p ∈ l) : getObj l p.1 = some p.2 := by
  induction l with
  | nil => exact absurd hp (List.not_mem_nil p)
  | cons q rest ih =>
    rcases List.mem_cons.mp hp with heq | hmem
    · subst heq; simp [getObj]
    · have hq : q.1 ≠ p.1 := by
        intro hkey
        have : p.1 ∈ rest.map Prod.fst := List.mem_map_of_mem Prod.fst hmem
        rw [List.map_cons, List.nodup_cons] at hnd
        exact hnd.1 (hkey ▸ this)
      rw [List.map_cons, List.nodup_cons] at hnd
      simp [getObj, hq, ih hnd.2 hmem]

/-- Merging the same object `e` a second time changes nothing, provided the
keys of `e` are distinct (as they are for any real JavaScript object). -/
theorem objMerge_objMerge_self {V : Type} (f e : List (String × V))
    (he : (e.map Prod.fst).Nodup) :
    objMerge (objMerge f e) e = objMerge f e := by
  have hmap : ∀ p ∈ objMerge f e, (p.1, (getObj e p.1).getD p.2) = p := by
    intro p hp
    rcases List.mem_append.mp hp with hp1 | hp2
    · rcases List.mem_map.mp hp1 with ⟨q, hq, hpq⟩
      subst hpq
      cases hge : getObj e q.1 <;> simp [hge]
    · have hmem : p ∈ e := List.mem_of_mem_filter hp2
      rw [getObj_of_nodup he hmem]
      simp
  have hfil : ∀ q ∈ e,
      ((objMerge f e).all (fun p => !decide (p.1 = q.1))) = false := by
    intro q hq
    cases hall : (objMerge f e).all (fun p => !decide (p.1 = q.1)) with
    | false => rfl
    | true =>
      have hnone : getObj (objMerge f e) q.1 = none :=
        (all_keys_ne_iff (objMerge f e) q.1).mp hall
      rw [getObj_objMerge] at hnone
      cases hge : getObj e q.1 with
      | none => exact absurd hge (getObj_mem_ne_none hq)
      | some v => rw [hge] at hnone; exact absurd hnone (by simp [Option.or])
  show (objMerge f e).map (fun p => (p.1, (getObj e p.1).getD p.2))
      ++ e.filter (fun q => (objMerge f e).all (fun p => !decide (p.1 = q.1)))
      = objMerge f e
  rw [map_eq_self_of hmap, filter_eq_nil_of hfil, List.append_nil]

/-- Merging an object with itself is the identity, for distinct keys. -/
theorem objMerge_self {V : Type} (e : List (String × V))
    (he : (e.map Prod.fst).Nodup) : objMerge e e = e := by
  have hmap : ∀ p ∈ e, (p.1, (getObj e p.1).getD p.2) = p := by
    intro p hp
    rw [getObj_of_nodup he hp]
    simp
  have hfil : ∀ q ∈ e, (e.all (fun p => !decide (p.1 = q.1))) = false := by
    intro q hq
    cases hall : e.all (fun p => !decide (p.1 = q.1)) with
    | false => rfl
    | true =>
      have hnone : getObj e q.1 = none := (all_keys_ne_iff e q.1).mp hall
      exact absurd hnone (getObj_mem_ne_none hq)
  show e.map (fun p => (p.1, (getObj e p.1).getD p.2))
      ++ e.filter (fun q => e.all (fun p => !decide (p.1 = q.1))) = e
  rw [map_eq_self_of hmap, filter_eq_nil_of hfil, List.append_nil]

/-! ## StateMerger: handleWebSocketMessage in DashboardView.vue

```js
if (data.type === 'FILE_UPDATE') \x7b
  const existingIndex = files.value.findIndex(f => f.file_id === data.file_id)
  if (existingIndex >= 0) \x7b
    files.value[existingIndex] = \x7b ...files.value[existingIndex], ...data \x7d
  \x7d else \x7b
    files.value.unshift(data)
  \x7d
\x7d
```

`replaceFirstFile` is the `findIndex`-plus-assignment pair expressed
structurally: it replaces the first entity whose `file_id` property equals
(`===`) the `file_id` of the event with the spread merge, or reports `none`
when no entity matches (both properties absent also compare equal, as
`undefined === undefined` does).
-/

def replaceFirstFile (e : JsObj) : List JsObj → Option (List JsObj)
  | [] => none
  | f :: rest =>
    if getObj f "file_id" = getObj e "file_id" then some (objMerge f e :: rest)
    else (replaceFirstFile e rest).map (fun l => f :: l)

/-- The FILE_UPDATE branch of `handleWebSocketMessage`: merge over the
matching entity, or `unshift` the event as a new entity. -/
def handleWebSocketMessage (files : List JsObj) (e : JsObj) : List JsObj :=
  if getObj e "type" = some (JsVal.str "FILE_UPDATE") then
    match replaceFirstFile e files with
    | some updated => updated
    | none => e :: files
  else files

theorem replaceFirstFile_idem (e : JsObj) (he : (e.map Prod.fst).Nodup) :
    ∀ files l, replaceFirstFile e files = some l → replaceFirstFile e l = some l := by
  intro files
  induction files with
  | nil => intro l h; exact absurd h (by simp [replaceFirstFile])
  | cons f rest ih =>
    intro l h
    by_cases hp : getObj f "file_id" = getObj e "file_id"
    · rw [replaceFirstFile, if_pos hp] at h
      have hl : l = objMerge f e :: rest := by
        injection h with h
        exact h.symm
      subst hl
      have hp2 : getObj (objMerge f e) "file_id" = getObj e "file_id" := by
        rw [getObj_objMerge]
        cases hge : getObj e "file_id" with
        | none => rw [hge] at hp; simp [Option.or, hp]
        | some v => simp [Option.or]
      rw [replaceFirstFile, if_pos hp2, objMerge_objMerge_self f e he]
    · rw [replaceFirstFile, if_neg hp] at h
      cases hr : replaceFirstFile e rest with
      | none => rw [hr] at h; exact absurd h (by simp)
      | some l2 =>
        rw [hr] at h
        have hl : l = f :: l2 := by
          injection h with h
          exact h.symm
        subst hl
        rw [replaceFirstFile, if_neg hp, ih l2 hr]
        rfl

/-- C1: applying the same FILE_UPDATE completion event twice to the
tracked-entity collection yields the same final state as applying it once.
`apply` inserts a new entity when the file_id of the event is unseen and
otherwise spread-merges the fields of the event over the existing entity.
The hypothesis records that the keys of a JavaScript object are distinct. -/
theorem stateMerger_apply_idempotent (files : List JsObj) (e : JsObj)
    (he : (e.map Prod.fst).Nodup) :
    handleWebSocketMessage (handleWebSocketMessage files e) e
      = handleWebSocketMessage files e := by
  by_cases ht : getObj e "type" = some (JsVal.str "FILE_UPDATE")
  · cases hr : replaceFirstFile e files with
    | some l =>
      have h1 : handleWebSocketMessage files e = l := by
        rw [handleWebSocketMessage, if_pos ht, hr]
      rw [h1, handleWebSocketMessage, if_pos ht,
        replaceFirstFile_idem e he files l hr]
    | none =>
      have h1 : handleWebSocketMessage files e = e :: files := by
        rw [handleWebSocketMessage, if_pos ht, hr]
      have hhead : replaceFirstFile e (e :: files)
          = some (objMerge e e :: files) := by
        simp [replaceFirstFile]
      rw [h1, handleWebSocketMessage, if_pos ht, hhead, objMerge_self e he]
  · rw [handleWebSocketMessage, if_neg ht, handleWebSocketMessage, if_neg ht]

/-- Witness for C1 at a concrete collection and event: the existing entity
`f-001` is merged with a FILE_UPDATE carrying a thumbnail, twice. -/
theorem stateMerger_apply_idempotent_witness :
    (((([("file_id", JsVal.str "f-001"), ("type", JsVal.str "FILE_UPDATE"),
        ("thumbnail_url", JsVal.str "https://t/1")] : JsObj).map Prod.fst).Nodup)
      ∧ handleWebSocketMessage
          (handleWebSocketMessage
            [[("file_id", JsVal.str "f-001"), ("status", JsVal.str "uploaded")]]
            [("file_id", JsVal.str "f-001"), ("type", JsVal.str "FILE_UPDATE"),
             ("thumbnail_url", JsVal.str "https://t/1")])
          [("file_id", JsVal.str "f-001"), ("type", JsVal.str "FILE_UPDATE"),
           ("thumbnail_url", JsVal.str "https://t/1")]
        = handleWebSocketMessage
            [[("file_id", JsVal.str "f-001"), ("status", JsVal.str "uploaded")]]
            [("file_id", JsVal.str "f-001"), ("type", JsVal.str "FILE_UPDATE"),
             ("thumbnail_url", JsVal.str "https://t/1")]) :=
  ⟨by decide,
   stateMerger_apply_idempotent
     [[("file_id", JsVal.str "f-001"), ("status", JsVal.str "uploaded")]]
     [("file_id", JsVal.str "f-001"), ("type", JsVal.str "FILE_UPDATE"),
      ("thumbnail_url", JsVal.str "https://t/1")]
     (by decide)⟩

/-! ## PushChannel models

`Ready` is the readyState of a browser WebSocket object.

Two services exist in the repository:

* `WState` / `wss...` models the WebSocketService of src/unnamed/part_001
  (the bird-tag app): guard on `readyState === OPEN`, an `isConnecting`
  flag set synchronously before any await, a constant `reconnectDelay`
  (3000) passed to setTimeout on abnormal close, and a `disconnect()` that
  raises `reconnectAttempts` to the maximum before closing with code 1000.
  The `onclose` handler of this service does not null the `ws` field.

* `BtState` / `bt...` models src/birdtag/src/services/websocket.js: guard
  only on `readyState === OPEN`, `this.fileId = fileId` before the token
  check, listeners kept in an insertion-ordered map (modelled as a list,
  `onopen` appends the `onMessage` callback), `onclose` nulls `ws` and on
  an abnormal code below the attempt limit schedules a retry after
  `reconnectDelay * reconnectAttempts` (the just-incremented value).

Ghost fields record observable effects: `opened` counts underlying
connections opened, `pendingTimers` counts scheduled reconnect callbacks,
`lastScheduledDelay` is the delay passed to the most recent setTimeout,
and `lastClientClose` the code of the most recent client-initiated close.
A `connect` call is modelled atomically; this is sound for the
single-flight analysis because the JavaScript code sets its guard state
(`isConnecting`, respectively `this.ws`) synchronously before the first
suspension point.
-/

inductive Ready : Type where
  | CONNECTING
  | OPEN
  | CLOSING
  | CLOSED
  deriving DecidableEq, Repr

structure WState where
  ws : Option Ready
  isConnecting : Bool
  reconnectAttempts : Nat
  maxReconnectAttempts : Nat
  reconnectDelay : Nat
  pendingTimers : Nat
  lastScheduledDelay : Option Nat
  lastClientClose : Option Nat
  opened : Nat
  deriving DecidableEq, Repr

/-- Constructor state of the part_001 WebSocketService. -/
def wssInit : WState :=
  { ws := none, isConnecting := false, reconnectAttempts := 0,
    maxReconnectAttempts := 5, reconnectDelay := 3000, pendingTimers := 0,
    lastScheduledDelay := none, lastClientClose := none, opened := 0 }

/-- `connect()` of part_001: no-op when the socket is OPEN or a connect is
already in flight; otherwise resolve a token (failure resets the flag and
throws) and open a new underlying connection. -/
def wssConnect (hasToken : Bool) (st : WState) : WState :=
  if st.ws = some Ready.OPEN then st
  else if st.isConnecting then st
  else if hasToken then
    { st with isConnecting := true, ws := some Ready.CONNECTING,
              opened := st.opened + 1 }
  else { st with isConnecting := false }

/-- `ws.onopen` of part_001. -/
def wssOnOpen (st : WState) : WState :=
  { st with ws := some Ready.OPEN, reconnectAttempts := 0, isConnecting := false }

/-- `ws.onclose` of part_001: the socket transitions to CLOSED (the field
itself is not nulled); on a code other than 1000 while below the attempt
limit, increment the counter and schedule a retry after the constant
`reconnectDelay`. -/
def wssOnClose (code : Nat) (st : WState) : WState :=
  let st1 := { st with ws := st.ws.map (fun _ => Ready.CLOSED),
                       isConnecting := false }
  if code ≠ 1000 ∧ st1.reconnectAttempts < st1.maxReconnectAttempts then
    { st1 with reconnectAttempts := st1.reconnectAttempts + 1,
               pendingTimers := st1.pendingTimers + 1,
               lastScheduledDelay := some st1.reconnectDelay }
  else st1

/-- `disconnect()` of part_001: saturate the attempt counter, close with
code 1000 and null the field.  Pending timers are not touched. -/
def wssDisconnect (st : WState) : WState :=
  if st.ws ≠ none then
    { st with reconnectAttempts := st.maxReconnectAttempts,
              lastClientClose := some 1000, ws := none }
  else st

/-- A previously scheduled reconnect timer fires: the callback simply calls
`connect()` again. -/
def wssTimerFire (hasToken : Bool) (st : WState) : WState :=
  if 0 < st.pendingTimers then
    wssConnect hasToken { st with pendingTimers := st.pendingTimers - 1 }
  else st

structure BtState (H : Type) where
  ws : Option Ready
  reconnectAttempts : Nat
  maxReconnectAttempts : Nat
  reconnectDelay : Nat
  listeners : List H
  fileId : Option String
  pendingTimers : Nat
  lastScheduledDelay : Option Nat
  opened : Nat

/-- Constructor state of the birdtag WebSocketService. -/
def btInit (H : Type) : BtState H :=
  { ws := none, reconnectAttempts := 0, maxReconnectAttempts := 5,
    reconnectDelay := 1000, listeners := [], fileId := none,
    pendingTimers := 0, lastScheduledDelay := none, opened := 0 }

/-- `connect(fileId, ...)` of birdtag: no-op only when the socket is OPEN;
otherwise store the fileId, and if a token is available open a new
underlying connection. -/
def btConnect {H : Type} (hasToken : Bool) (fid : Option String)
    (st : BtState H) : BtState H :=
  if st.ws = some Ready.OPEN then st
  else
    let st1 := { st with fileId := fid }
    if hasToken then
      { st1 with ws := some Ready.CONNECTING, opened := st1.opened + 1 }
    else st1

/-- `ws.onopen` of birdtag: reset the attempt counter and register the
`onMessage` callback as one more listener (a fresh map key per call). -/
def btOnOpen {H : Type} (onMessage : Option H) (st : BtState H) : BtState H :=
  { st with ws := some Ready.OPEN, reconnectAttempts := 0,
            listeners := match onMessage with
              | some h => st.listeners ++ [h]
              | none => st.listeners }

/-- `ws.onclose` of birdtag: null the field; on a code other than 1000
while below the attempt limit, increment the counter and schedule a retry
after `reconnectDelay * reconnectAttempts` (the incremented value). -/
def btOnClose {H : Type} (code : Nat) (st : BtState H) : BtState H :=
  let st1 := { st with ws := none }
  if code ≠ 1000 ∧ st1.reconnectAttempts < st1.maxReconnectAttempts then
    { st1 with reconnectAttempts := st1.reconnectAttempts + 1,
               pendingTimers := st1.pendingTimers + 1,
               lastScheduledDelay :=
                 some (st1.reconnectDelay * (st1.reconnectAttempts + 1)) }
  else st1

/-- A scheduled birdtag reconnect timer fires: the callback calls
`this.connect(this.fileId, onMessage, ...)`. -/
def btTimerFire {H : Type} (hasToken : Bool) (st : BtState H) : BtState H :=
  if 0 < st.pendingTimers then
    btConnect hasToken st.fileId { st with pendingTimers := st.pendingTimers - 1 }
  else st

/-! ## Message fan-out -/

/-- A subscribed message handler; a thrown exception is an `error`. -/
abbrev Handler (M : Type) := M → Except String Unit

/-- One iteration of the listener loop body: the try/catch around the
call turns a thrown exception into a logged diagnostic. -/
def listenerOutcome {M : Type} (h : Handler M) (d : M) : Option String :=
  match h d with
  | Except.ok _ => none
  | Except.error err => some err

/-- `notifyListeners` / `notifyMessageHandlers`: call every listener in
order, each one wrapped in its own try/catch. -/
def notifyListeners {M : Type} : List (Handler M) → M → List (Option String)
  | [], _ => []
  | h :: rest, d => listenerOutcome h d :: notifyListeners rest d

/-- `ws.onmessage`: JSON.parse the raw payload; on failure log and drop
(the service state, including the connection, is untouched and no listener
runs); on success fan the value out to the listeners. -/
def wsOnMessage {M : Type} (parse : String → Option M) (raw : String)
    (st : BtState (Handler M)) : BtState (Handler M) × List (Option String) :=
  match parse raw with
  | none => (st, [])
  | some d => (st, notifyListeners st.listeners d)

theorem notifyListeners_append {M : Type} (hs1 hs2 : List (Handler M)) (d : M) :
    notifyListeners (hs1 ++ hs2) d
      = notifyListeners hs1 d ++ notifyListeners hs2 d := by
  induction hs1 with
  | nil => rfl
  | cons h rest ih => simp [notifyListeners, ih]

theorem notifyListeners_eq_map {M : Type} (hs : List (Handler M)) (d : M) :
    notifyListeners hs d = hs.map (fun h => listenerOutcome h d) := by
  induction hs with
  | nil => rfl
  | cons h rest ih => simp [notifyListeners, ih]

theorem notifyListeners_replicate {M : Type} (n : Nat) (h : Handler M) (d : M) :
    notifyListeners (List.replicate n h) d
      = List.replicate n (listenerOutcome h d) := by
  induction n with
  | zero => rfl
  | succ n ih => simp [List.replicate_succ, notifyListeners, ih]

/-! ## Claims about connect, disconnect and the reconnect policy -/

/-- A birdtag service state holding a connection that is still being
established (readyState CONNECTING), with one connection opened so far. -/
def btConnecting : BtState Unit :=
  { btInit Unit with ws := some Ready.CONNECTING, opened := 1 }

/-- C2 counterexample: in the birdtag WebSocketService, a `connect()` call
while the first connection is still CONNECTING is not a no-op — it opens a
second underlying connection, because the guard only checks for readyState
OPEN.  This refutes the claim that a call while the status is connecting
opens no second connection. -/
theorem btConnect_second_connection_while_connecting :
    btConnecting.ws = some Ready.CONNECTING
    ∧ btConnecting.opened = 1
    ∧ (btConnect true (some "f-001") btConnecting).opened = 2 := by
  decide

/-- C2 amended: the part_001 WebSocketService is single-flight — while the
socket is OPEN or the `isConnecting` flag is set, `connect()` is a no-op,
so two consecutive `connect()` calls from an idle state open exactly one
underlying connection; the birdtag service is a no-op only while the
socket is OPEN. -/
theorem connect_single_flight_amended (w : WState) (st : BtState Unit)
    (tok : Bool) (fid : Option String) :
    ((w.ws = some Ready.OPEN ∨ w.isConnecting = true) → wssConnect tok w = w)
    ∧ (w.ws ≠ some Ready.OPEN → w.isConnecting = false →
        (wssConnect true (wssConnect true w)).opened = w.opened + 1)
    ∧ (st.ws = some Ready.OPEN → btConnect tok fid st = st) := by
  refine ⟨?_, ?_, ?_⟩
  · rintro (h | h)
    · simp [wssConnect, h]
    · by_cases h1 : w.ws = some Ready.OPEN
      · simp [wssConnect, h1]
      · simp [wssConnect, h1, h]
  · intro h1 h2
    simp [wssConnect, h1, h2]
  · intro h
    simp [btConnect, h]

/-- An idle part_001 service state used to witness the two-call property,
and a connected birdtag state used to witness its OPEN guard. -/
def btOpenState : BtState Unit := { btInit Unit with ws := some Ready.OPEN }

/-- Witness for the amended C2 at concrete states. -/
theorem connect_single_flight_amended_witness :
    wssConnect true { wssInit with ws := some Ready.OPEN }
        = { wssInit with ws := some Ready.OPEN }
    ∧ (wssConnect true (wssConnect true wssInit)).opened = wssInit.opened + 1
    ∧ btConnect true (some "f-001") btOpenState = btOpenState :=
  ⟨(connect_single_flight_amended { wssInit with ws := some Ready.OPEN }
      btOpenState true (some "f-001")).1 (Or.inl rfl),
   (connect_single_flight_amended wssInit btOpenState true
      (some "f-001")).2.1 (by decide) rfl,
   (connect_single_flight_amended wssInit btOpenState true
      (some "f-001")).2.2 rfl⟩

/-- A connected part_001 service state with one connection opened. -/
def wConnected : WState := { wssInit with ws := some Ready.OPEN, opened := 1 }

/-- C3 counterexample: an abnormal closure (code 1006) schedules a retry;
`disconnect()` then runs (closing with code 1000, saturating the attempt
counter and nulling the socket), yet the already pending retry timer still
fires and opens a new underlying connection (`opened` goes from 1 to 2).
This refutes the claim that after `disconnect()` a previously scheduled
retry never opens a new connection. -/
theorem disconnect_stale_retry_reconnects :
    (wssOnClose 1006 wConnected).pendingTimers = 1
    ∧ (wssDisconnect (wssOnClose 1006 wConnected)).ws = none
    ∧ (wssDisconnect (wssOnClose 1006 wConnected)).opened = 1
    ∧ (wssTimerFire true (wssDisconnect (wssOnClose 1006 wConnected))).opened
        = 2 := by
  decide

/-- C3 amended: `disconnect()` closes with the intentional code 1000 and
saturates `reconnectAttempts`, so no close event arriving afterwards
schedules a new retry; but it does not cancel a retry timer that is
already pending. -/
theorem disconnect_suppresses_future_scheduling (st : WState) (code : Nat)
    (h : st.ws ≠ none) :
    (wssDisconnect st).lastClientClose = some 1000
    ∧ (wssDisconnect st).reconnectAttempts = st.maxReconnectAttempts
    ∧ (wssOnClose code (wssDisconnect st)).pendingTimers
        = (wssDisconnect st).pendingTimers
    ∧ (wssDisconnect st).pendingTimers = st.pendingTimers := by
  refine ⟨?_, ?_, ?_, ?_⟩
  · simp [wssDisconnect, h]
  · simp [wssDisconnect, h]
  · simp [wssDisconnect, wssOnClose, h]
  · simp [wssDisconnect, h]

/-- Witness for the amended C3 at a concrete connected state. -/
theorem disconnect_suppresses_future_scheduling_witness :
    (wssDisconnect wConnected).lastClientClose = some 1000
    ∧ (wssDisconnect wConnected).reconnectAttempts
        = wConnected.maxReconnectAttempts
    ∧ (wssOnClose 1006 (wssDisconnect wConnected)).pendingTimers
        = (wssDisconnect wConnected).pendingTimers
    ∧ (wssDisconnect wConnected).pendingTimers = wConnected.pendingTimers :=
  disconnect_suppresses_future_scheduling wConnected 1006 (by decide)

/-- C4 counterexample: in the part_001 service two consecutive abnormal
closures increment `reconnectAttempts` from 1 to 2, yet both retries are
scheduled after the identical constant delay 3000 — the delay does not
strictly grow with the attempt counter. -/
theorem backoff_delay_not_strictly_growing :
    (wssOnClose 1006 wssInit).reconnectAttempts = 1
    ∧ (wssOnClose 1006 wssInit).lastScheduledDelay = some 3000
    ∧ (wssOnClose 1006 (wssOnClose 1006 wssInit)).reconnectAttempts = 2
    ∧ (wssOnClose 1006 (wssOnClose 1006 wssInit)).lastScheduledDelay
        = some 3000 := by
  decide

/-- C4 amended: on an abnormal closure below the attempt limit both
services increment the attempt counter and schedule a retry; the birdtag
service uses delay `reconnectDelay * attempt`, which strictly grows with
the attempt number, while the part_001 service uses the constant
`reconnectDelay`. -/
theorem backoff_policy_amended (b : BtState Unit) (w : WState) (code : Nat)
    (hcode : code ≠ 1000) (hb : b.reconnectAttempts < b.maxReconnectAttempts)
    (hw : w.reconnectAttempts < w.maxReconnectAttempts)
    (hd : 0 < b.reconnectDelay) :
    (btOnClose code b).reconnectAttempts = b.reconnectAttempts + 1
    ∧ (btOnClose code b).pendingTimers = b.pendingTimers + 1
    ∧ (btOnClose code b).lastScheduledDelay
        = some (b.reconnectDelay * (b.reconnectAttempts + 1))
    ∧ (∀ a1 a2 : Nat, a1 < a2 →
        b.reconnectDelay * (a1 + 1) < b.reconnectDelay * (a2 + 1))
    ∧ (wssOnClose code w).reconnectAttempts = w.reconnectAttempts + 1
    ∧ (wssOnClose code w).lastScheduledDelay = some w.reconnectDelay := by
  refine ⟨?_, ?_, ?_, ?_, ?_, ?_⟩
  · simp [btOnClose, hcode, hb]
  · simp [btOnClose, hcode, hb]
  · simp [btOnClose, hcode, hb]
  · intro a1 a2 hlt
    exact Nat.mul_lt_mul_of_le_of_lt (Nat.le_refl _) (by omega) hd
  · simp [wssOnClose, hcode, hw]
  · simp [wssOnClose, hcode, hw]

/-- Witness for the amended C4 at concrete states. -/
theorem backoff_policy_amended_witness :
    (btOnClose 1006 (btInit Unit)).reconnectAttempts
        = (btInit Unit).reconnectAttempts + 1
    ∧ (btOnClose 1006 (btInit Unit)).pendingTimers
        = (btInit Unit).pendingTimers + 1
    ∧ (btOnClose 1006 (btInit Unit)).lastScheduledDelay
        = some ((btInit Unit).reconnectDelay
            * ((btInit Unit).reconnectAttempts + 1))
    ∧ (∀ a1 a2 : Nat, a1 < a2 →
        (btInit Unit).reconnectDelay * (a1 + 1)
          < (btInit Unit).reconnectDelay * (a2 + 1))
    ∧ (wssOnClose 1006 wssInit).reconnectAttempts
        = wssInit.reconnectAttempts + 1
    ∧ (wssOnClose 1006 wssInit).lastScheduledDelay
        = some wssInit.reconnectDelay :=
  backoff_policy_amended (btInit Unit) wssInit 1006 (by decide) (by decide)
    (by decide) (by decide)

/-- C8: a malformed inbound payload is logged and dropped — the service
state (and so the connection) is untouched and no listener runs; and the
listener loop is exception-isolated: fan-out distributes over any split of
the listener list, and every listener receives its own try/catch outcome,
so one listener throwing cannot stop delivery to the rest. -/
theorem malformed_dropped_handlers_isolated {M : Type}
    (parse : String → Option M) (raw : String) (st : BtState (Handler M))
    (hs1 hs2 : List (Handler M)) (d : M)
    (hmal : parse raw = none) :
    wsOnMessage parse raw st = (st, [])
    ∧ notifyListeners (hs1 ++ hs2) d
        = notifyListeners hs1 d ++ notifyListeners hs2 d
    ∧ notifyListeners hs1 d = hs1.map (fun h => listenerOutcome h d) := by
  refine ⟨?_, notifyListeners_append hs1 hs2 d, notifyListeners_eq_map hs1 d⟩
  simp [wsOnMessage, hmal]

/-- Witness for C8: an unparseable payload is dropped, and a throwing
first listener does not prevent delivery to the second. -/
theorem malformed_dropped_handlers_isolated_witness :
    wsOnMessage (M := Nat) (fun _ => none) "not json" (btInit (Handler Nat))
        = (btInit (Handler Nat), [])
    ∧ notifyListeners
        ([fun _ => Except.error "boom"] ++ [fun _ => Except.ok ()]) 0
        = notifyListeners [fun _ => Except.error "boom"] 0
          ++ notifyListeners [fun _ => Except.ok ()] 0
    ∧ notifyListeners [fun _ => Except.error "boom"] 0
        = ([fun _ => Except.error "boom"] : List (Handler Nat)).map
            (fun h => listenerOutcome h 0) :=
  malformed_dropped_handlers_isolated (M := Nat) (fun _ => none)
    "not json" (btInit (Handler Nat)) [fun _ => Except.error "boom"]
    [fun _ => Except.ok ()] 0 rfl

/-! ## C9: listener duplication across automatic reconnects (birdtag) -/

/-- One session of the birdtag service that connects successfully and then
suffers `k` abnormal closures, each followed by the scheduled automatic
reconnect and a successful open.  Every open registers the same
`onMessage` callback again. -/
def btOpenCycle {M : Type} (h : Handler M) : Nat → BtState (Handler M)
  | 0 => btOnOpen (some h) (btConnect true (some "f-001") (btInit (Handler M)))
  | k + 1 => btOnOpen (some h) (btTimerFire true (btOnClose 1006 (btOpenCycle h k)))

theorem btOpenCycle_invariant {M : Type} (h : Handler M) (k : Nat) :
    (btOpenCycle h k).ws = some Ready.OPEN
    ∧ (btOpenCycle h k).reconnectAttempts = 0
    ∧ (btOpenCycle h k).maxReconnectAttempts = 5
    ∧ (btOpenCycle h k).pendingTimers = 0
    ∧ (btOpenCycle h k).listeners = List.replicate (k + 1) h := by
  induction k with
  | zero =>
    refine ⟨rfl, rfl, rfl, rfl, ?_⟩
    simp [btOpenCycle, btConnect, btOnOpen, btInit]
  | succ k ih =>
    obtain ⟨h1, h2, h3, h4, h5⟩ := ih
    have hclose : btOnClose 1006 (btOpenCycle h k)
        = { btOpenCycle h k with
            ws := none, reconnectAttempts := 1, pendingTimers := 1,
            lastScheduledDelay :=
              some ((btOpenCycle h k).reconnectDelay * 1) } := by
      simp [btOnClose, h2, h3, h4]
    have hfire : btTimerFire true (btOnClose 1006 (btOpenCycle h k))
        = { btOpenCycle h k with
            ws := some Ready.CONNECTING, reconnectAttempts := 1,
            pendingTimers := 0,
            lastScheduledDelay :=
              some ((btOpenCycle h k).reconnectDelay * 1),
            opened := (btOpenCycle h k).opened + 1 } := by
      rw [hclose]
      simp [btTimerFire, btConnect]
    refine ⟨?_, ?_, ?_, ?_, ?_⟩
    · simp [btOpenCycle, hfire, btOnOpen]
    · simp [btOpenCycle, hfire, btOnOpen]
    · simp [btOpenCycle, hfire, btOnOpen, h3]
    · simp [btOpenCycle, hfire, btOnOpen]
    · simp only [btOpenCycle, hfire, btOnOpen, h5]
      rw [← List.replicate_succ']

/-- C9: in the birdtag WebSocketService every successful open — including
each automatic reconnect after an abnormal close — registers the
`onMessage` callback passed to `connect()` as an additional listener
without removing earlier registrations, so after `k` automatic reconnects
in one session the listener list holds `k + 1` copies of the callback and
a single inbound event invokes it `k + 1` times. -/
theorem btWebSocket_duplicate_listener_registrations {M : Type}
    (h : Handler M) (k : Nat) (d : M) :
    (btOpenCycle h k).listeners = List.replicate (k + 1) h
    ∧ notifyListeners (btOpenCycle h k).listeners d
        = List.replicate (k + 1) (listenerOutcome h d) := by
  have hl := (btOpenCycle_invariant h k).2.2.2.2
  exact ⟨hl, by rw [hl, notifyListeners_replicate]⟩

/-! ## CredentialResolver: AuthService.getUserSession / getOAuthSession

The primary credential source is the Cognito SDK session of the current
user; the secondary source is the OAuth token set persisted in
localStorage.  Callback errors of the SDK are modelled as `Except.error`;
the JWT decoder is an opaque parameter (its base64 mechanics are not what
the claims are about).  JavaScript truthiness of the stored strings and of
the numeric `exp` claim is modelled explicitly.
-/

structure SessionModel where
  valid : Bool
  idToken : String
  accessToken : String
  refreshToken : String
  deriving DecidableEq, Repr

structure CognitoUserModel where
  sessionResult : Except String SessionModel
  attributesResult : Except String (List (String × String))
  deriving Repr

structure JwtPayload where
  exp : Option Int
  sub : Option String
  cognitoUsername : Option String
  email : Option String
  name : Option String
  deriving DecidableEq, Repr

structure OAuthStore where
  idToken : Option String
  accessToken : Option String
  refreshToken : Option String
  deriving DecidableEq, Repr

structure SessionInfo where
  idToken : String
  accessToken : String
  refreshToken : String
  userId : Option String
  userEmail : Option String
  userName : Option String
  deriving DecidableEq, Repr

/-- JavaScript truthiness of a possibly absent string (empty is falsy). -/
def jsTruthyStr : Option String → Bool
  | none => false
  | some s => decide (s ≠ "")

/-- JavaScript `a || b` on possibly absent strings. -/
def jsOr (a b : Option String) : Option String :=
  match a with
  | some s => if s = "" then b else some s
  | none => b

/-- Truthiness of `tokenPayload.exp` (absent or zero is falsy). -/
def jsTruthyExp : Option Int → Bool
  | none => false
  | some e => decide (e ≠ 0)

/-- The `exp && exp < now` guard of getOAuthSession. -/
def oauthExpired (p : JwtPayload) (now : Int) : Bool :=
  jsTruthyExp p.exp && decide (p.exp.getD 0 < now)

/-- The session object resolved from stored OAuth tokens. -/
def oauthInfo (store : OAuthStore) (idt act : String) (p : JwtPayload) :
    SessionInfo :=
  { idToken := idt, accessToken := act,
    refreshToken := store.refreshToken.getD "",
    userId := jsOr p.sub p.cognitoUsername,
    userEmail := p.email,
    userName := (jsOr (jsOr p.name p.cognitoUsername)
      (jsOr p.email (some "User"))).getD "User" }

/-- `getOAuthSession`: reject when a stored token is missing or empty,
when the JWT does not decode, or when the expiry claim has passed;
otherwise resolve the stored credential. -/
def getOAuthSession (store : OAuthStore)
    (decode : String → Option JwtPayload) (now : Int) :
    Except String SessionInfo :=
  if jsTruthyStr store.idToken = false ∨ jsTruthyStr store.accessToken = false
  then Except.error "No user found"
  else
    let idt := store.idToken.getD ""
    let act := store.accessToken.getD ""
    match decode idt with
    | none => Except.error "Invalid token"
    | some p =>
      if oauthExpired p now then Except.error "Token expired"
      else Except.ok (oauthInfo store idt act p)

/-- The session object resolved from a Cognito SDK session plus the user
attribute list. -/
def cognitoInfo (s : SessionModel) (attrs : List (String × String)) :
    SessionInfo :=
  { idToken := s.idToken, accessToken := s.accessToken,
    refreshToken := s.refreshToken,
    userId := getObj attrs "sub",
    userEmail := getObj attrs "email",
    userName := jsOr (getObj attrs "name") (getObj attrs "email") }

/-- `getUserSession`: try the Cognito SDK session of the current user; any
miss (no current user, getSession error, invalid session, attribute fetch
error) falls back to the persisted OAuth tokens. -/
def getUserSession (currentUser : Option CognitoUserModel)
    (store : OAuthStore) (decode : String → Option JwtPayload) (now : Int) :
    Except String SessionInfo :=
  match currentUser with
  | none => getOAuthSession store decode now
  | some u =>
    match u.sessionResult with
    | Except.error _ => getOAuthSession store decode now
    | Except.ok s =>
      if s.valid = false then getOAuthSession store decode now
      else
        match u.attributesResult with
        | Except.error _ => getOAuthSession store decode now
        | Except.ok attrs => Except.ok (cognitoInfo s attrs)

/-- The primary source misses: no current user, an erroring or invalid
session, or an attribute fetch error. -/
def primaryMiss : Option CognitoUserModel → Bool
  | none => true
  | some u =>
    match u.sessionResult with
    | Except.error _ => true
    | Except.ok s =>
      !s.valid ||
        (match u.attributesResult with
         | Except.error _ => true
         | Except.ok _ => false)

/-- C5: credential resolution tries the Cognito session first and treats
any internal error of that source as a miss, falling back to the persisted
OAuth tokens; with no usable stored token it fails with the auth error
"No user found"; with a stored token whose expiry claim has passed it
fails with "Token expired"; with a valid non-expired stored token it
resolves the secondary credential. -/
theorem authService_fallback_resolution (cu : Option CognitoUserModel)
    (store : OAuthStore) (decode : String → Option JwtPayload) (now : Int)
    (hmiss : primaryMiss cu = true) :
    getUserSession cu store decode now = getOAuthSession store decode now
    ∧ ((jsTruthyStr store.idToken = false
        ∨ jsTruthyStr store.accessToken = false) →
        getUserSession cu store decode now = Except.error "No user found")
    ∧ (∀ p : JwtPayload, jsTruthyStr store.idToken = true →
        jsTruthyStr store.accessToken = true →
        decode (store.idToken.getD "") = some p →
        oauthExpired p now = true →
        getUserSession cu store decode now = Except.error "Token expired")
    ∧ (∀ p : JwtPayload, jsTruthyStr store.idToken = true →
        jsTruthyStr store.accessToken = true →
        decode (store.idToken.getD "") = some p →
        oauthExpired p now = false →
        getUserSession cu store decode now
          = Except.ok (oauthInfo store (store.idToken.getD "")
              (store.accessToken.getD "") p)) := by
  have h1 : getUserSession cu store decode now
      = getOAuthSession store decode now := by
    cases cu with
    | none => rfl
    | some u =>
      cases hs : u.sessionResult with
      | error e => simp [getUserSession, hs]
      | ok s =>
        cases hv : s.valid with
        | false => simp [getUserSession, hs, hv]
        | true =>
          cases ha : u.attributesResult with
          | error e => simp [getUserSession, hs, hv, ha]
          | ok attrs =>
            exfalso
            simp [primaryMiss, hs, hv, ha] at hmiss
  refine ⟨h1, ?_, ?_, ?_⟩
  · intro hnone
    rw [h1]
    unfold getOAuthSession
    rw [if_pos hnone]
  · intro p hid hac hdec hexp
    rw [h1]
    unfold getOAuthSession
    rw [if_neg (by simp [hid, hac])]
    simp only [hdec, hexp, if_true]
  · intro p hid hac hdec hexp
    rw [h1]
    unfold getOAuthSession
    rw [if_neg (by simp [hid, hac])]
    simp only [hdec, hexp]
    rfl

/-- Concrete inputs for the C5 witness: the Cognito source throws, the
stored OAuth token decodes to a payload expiring far in the future. -/
def cuW : Option CognitoUserModel :=
  some { sessionResult := Except.error "NetworkError",
         attributesResult := Except.ok [] }

def storeW : OAuthStore :=
  { idToken := some "header.payload.sig", accessToken := some "acc",
    refreshToken := none }

def payloadW : JwtPayload :=
  { exp := some 99999, sub := some "u1", cognitoUsername := none,
    email := some "u1@example.com", name := none }

/-- Witness for C5: the primary source throws and the secondary resolves
its non-expired credential. -/
theorem authService_fallback_resolution_witness :
    primaryMiss cuW = true
    ∧ getUserSession cuW storeW (fun _ => some payloadW) 1000
        = Except.ok (oauthInfo storeW (storeW.idToken.getD "")
            (storeW.accessToken.getD "") payloadW) :=
  ⟨rfl,
   (authService_fallback_resolution cuW storeW (fun _ => some payloadW) 1000
      rfl).2.2.2 payloadW rfl rfl rfl rfl⟩

/-! ## UploadCoordinator: uploadFile in DashboardView.vue

```js
const uploadItem = \x7b id, file, progress: 0, status: 'uploading' \x7d
...
await apiService.uploadToS3(presign_url, file, (progress) => \x7b item.progress = progress \x7d)
... // success: item removed from the queue after a 2s delay
catch \x7b item.status = 'error'; item.progress = 0 \x7d
```

`uploadFileStates` lists the successive observable states of one upload
item for a given run: failure at the grant step, failure during the byte
transfer after some progress events, or success.
-/

structure UploadItem where
  progress : Nat
  status : String
  deriving DecidableEq, Repr

/-- The item as created by `uploadFile` (before any await). -/
def initialUploadItem : UploadItem := { progress := 0, status := "uploading" }

/-- The item after the catch block: status `error`, progress reset. -/
def errorItem : UploadItem := { progress := 0, status := "error" }

/-- One possible run of the grant and transfer steps. -/
inductive UploadRun : Type where
  | grantFail : UploadRun
  | transferFail : List Nat → UploadRun
  | success : List Nat → UploadRun

/-- The states produced by the progress callback. -/
def progressStates (it : UploadItem) : List Nat → List UploadItem
  | [] => []
  | p :: ps =>
    ({ it with progress := p }) :: progressStates { it with progress := p } ps

/-- The successive states of one upload item over a whole run. -/
def uploadFileStates : UploadRun → List UploadItem
  | UploadRun.grantFail => [initialUploadItem, errorItem]
  | UploadRun.transferFail ps =>
      initialUploadItem :: progressStates initialUploadItem ps ++ [errorItem]
  | UploadRun.success ps =>
      initialUploadItem :: progressStates initialUploadItem ps

theorem progressStates_status (s : String) :
    ∀ (ps : List Nat) (it : UploadItem), it.status = s →
      (progressStates it ps).map UploadItem.status
        = List.replicate ps.length s := by
  intro ps
  induction ps with
  | nil => intro it h; rfl
  | cons p rest ih =>
    intro it h
    have htl := ih { it with progress := p } (by simpa using h)
    rw [h] at htl
    simp [progressStates, List.replicate_succ, h, htl]

/-- C6 counterexample: the upload item of `uploadFile` is created directly
in status `uploading` (there is no `pending` state), a successful run
never reaches a `completed` status (the item is removed from the queue
instead), and a grant failure produces status `error` — not `failed` —
with the progress reset to 0.  This refutes the claimed
pending/uploading/completed/failed state machine. -/
theorem uploadTask_states_not_as_claimed :
    (uploadFileStates (UploadRun.success [50, 100])).head? =
      some { progress := 0, status := "uploading" }
    ∧ ((uploadFileStates (UploadRun.success [50, 100])).all
        (fun s => s.status != "pending" && s.status != "completed")) = true
    ∧ (uploadFileStates UploadRun.grantFail).getLast? =
        some { progress := 0, status := "error" } := by
  decide

/-- C6 amended: every upload item starts in status `uploading` with
progress 0; a failure at the grant or transfer step moves it to the
terminal state `error` with progress reset to 0, which is the last state
of the run (no field changes afterwards); a successful transfer leaves it
in status `uploading` until it is removed from the queue; the only
statuses ever taken are `uploading` and `error`. -/
theorem uploadTask_state_machine_amended (run : UploadRun) :
    (uploadFileStates run).head? = some initialUploadItem
    ∧ ((uploadFileStates run).map UploadItem.status =
        match run with
        | UploadRun.grantFail => ["uploading", "error"]
        | UploadRun.transferFail ps =>
            List.replicate (ps.length + 1) "uploading" ++ ["error"]
        | UploadRun.success ps =>
            List.replicate (ps.length + 1) "uploading")
    ∧ (match run with
        | UploadRun.grantFail => (uploadFileStates run).getLast? = some errorItem
        | UploadRun.transferFail _ =>
            (uploadFileStates run).getLast? = some errorItem
        | UploadRun.success _ => True) := by
  cases run with
  | grantFail => exact ⟨rfl, rfl, rfl⟩
  | transferFail ps =>
    refine ⟨rfl, ?_, ?_⟩
    · simp only [uploadFileStates, List.map_cons, List.map_append,
        progressStates_status "uploading" ps initialUploadItem rfl,
        List.replicate_succ]
      rfl
    · show (initialUploadItem :: (progressStates initialUploadItem ps
          ++ [errorItem])).getLast? = some errorItem
      rw [← List.cons_append, List.getLast?_concat]
  | success ps =>
    refine ⟨rfl, ?_, trivial⟩
    simp only [uploadFileStates, List.map_cons,
      progressStates_status "uploading" ps initialUploadItem rfl,
      List.replicate_succ]
    rfl

/-! ## Byte transfer: uploadToS3 in birdtag utils/api.js and in the
part_001 ApiService

The birdtag version forwards `(e.loaded / e.total) * 100` for every
progress event with `lengthComputable`; the part_001 version forwards
`Math.round(e.loaded * 100 / e.total)`.  The load handler resolves only
on status 200 and rejects any other status with
`Upload failed with status N`; the error handler rejects with
`Upload failed`.
-/

structure ProgressEvent where
  lengthComputable : Bool
  loaded : Nat
  total : Nat
  deriving DecidableEq, Repr

/-- The values passed to `onProgress` by the birdtag `uploadToS3`. -/
def uploadToS3Progress (events : List ProgressEvent) : List ℚ :=
  (events.filter (fun e => e.lengthComputable)).map
    (fun e => (e.loaded : ℚ) / (e.total : ℚ) * 100)

/-- JavaScript `Math.round` on a rational. -/
def jsRound (x : ℚ) : Int := ⌊x + 1/2⌋

/-- The values passed to `onProgress` by the part_001 `uploadToS3`. -/
def apiServiceProgress (events : List ProgressEvent) : List Int :=
  (events.filter (fun e => e.lengthComputable)).map
    (fun e => jsRound ((e.loaded : ℚ) * 100 / (e.total : ℚ)))

/-- Outcome of the XMLHttpRequest: a load event with a status, or a
network error. -/
inductive XhrOutcome : Type where
  | load : Nat → XhrOutcome
  | netError : XhrOutcome
  deriving DecidableEq, Repr

/-- Settlement of the `uploadToS3` promise. -/
def uploadToS3Result : XhrOutcome → Except String Unit
  | XhrOutcome.load status =>
      if status = 200 then Except.ok ()
      else Except.error ("Upload failed with status " ++ toString status)
  | XhrOutcome.netError => Except.error "Upload failed"

/-- C7: during a byte transfer, each length-computable progress event
produces exactly one `onProgress` call, every reported value lies in
[0, 100] (in both implementations, given the transport invariant
`loaded ≤ total` with positive total), and the transfer fails with a
transfer error on a network failure or a non-success status from the
storage endpoint. -/
theorem transfer_progress_bounds_and_errors (events : List ProgressEvent)
    (status : Nat)
    (hev : ∀ e ∈ events, e.lengthComputable = true →
      0 < e.total ∧ e.loaded ≤ e.total)
    (hbad : ¬(200 ≤ status ∧ status < 300)) :
    (∀ q ∈ uploadToS3Progress events, 0 ≤ q ∧ q ≤ 100)
    ∧ (uploadToS3Progress events).length
        = (events.filter (fun e => e.lengthComputable)).length
    ∧ (∀ z ∈ apiServiceProgress events, 0 ≤ z ∧ z ≤ 100)
    ∧ uploadToS3Result (XhrOutcome.load status)
        = Except.error ("Upload failed with status " ++ toString status)
    ∧ uploadToS3Result XhrOutcome.netError = Except.error "Upload failed" := by
  have hstat : status ≠ 200 := by omega
  refine ⟨?_, ?_, ?_, ?_, rfl⟩
  · intro q hq
    rcases List.mem_map.mp hq with ⟨e, he, heq⟩
    have hel := List.mem_filter.mp he
    obtain ⟨ht0, hle⟩ := hev e hel.1 hel.2
    have htq : (0 : ℚ) < (e.total : ℚ) := by exact_mod_cast ht0
    have hleq : (e.loaded : ℚ) ≤ (e.total : ℚ) := by exact_mod_cast hle
    subst heq
    constructor
    · positivity
    · have h1 : (e.loaded : ℚ) / (e.total : ℚ) ≤ 1 := (div_le_one htq).mpr hleq
      calc (e.loaded : ℚ) / (e.total : ℚ) * 100 ≤ 1 * 100 := by
            exact mul_le_mul_of_nonneg_right h1 (by norm_num)
        _ = 100 := by norm_num
  · exact List.length_map _ _
  · intro z hz
    rcases List.mem_map.mp hz with ⟨e, he, heq⟩
    have hel := List.mem_filter.mp he
    obtain ⟨ht0, hle⟩ := hev e hel.1 hel.2
    have htq : (0 : ℚ) < (e.total : ℚ) := by exact_mod_cast ht0
    have hleq : (e.loaded : ℚ) ≤ (e.total : ℚ) := by exact_mod_cast hle
    have hx0 : (0 : ℚ) ≤ (e.loaded : ℚ) * 100 / (e.total : ℚ) := by positivity
    have hx100 : (e.loaded : ℚ) * 100 / (e.total : ℚ) ≤ 100 := by
      rw [div_le_iff₀ htq]
      nlinarith
    subst heq
    constructor
    · rw [jsRound]
      exact Int.le_floor.mpr (by push_cast; linarith)
    · rw [jsRound]
      have : ⌊(e.loaded : ℚ) * 100 / (e.total : ℚ) + 1/2⌋ < 101 :=
        Int.floor_lt.mpr (by push_cast; linarith)
      omega
  · simp [uploadToS3Result, hstat]

/-- Concrete progress events for the C7 witness. -/
def eventsW : List ProgressEvent :=
  [{ lengthComputable := true, loaded := 5, total := 10 },
   { lengthComputable := false, loaded := 3, total := 0 },
   { lengthComputable := true, loaded := 10, total := 10 }]

/-- Witness for C7 at concrete events and a concrete failing status. -/
theorem transfer_progress_bounds_and_errors_witness :
    (0 ≤ ((5 : ℚ) / (10 : ℚ) * 100) ∧ ((5 : ℚ) / (10 : ℚ) * 100) ≤ 100)
    ∧ (uploadToS3Progress eventsW).length
        = (eventsW.filter (fun e => e.lengthComputable)).length
    ∧ (0 ≤ jsRound ((5 : ℚ) * 100 / (10 : ℚ))
        ∧ jsRound ((5 : ℚ) * 100 / (10 : ℚ)) ≤ 100)
    ∧ uploadToS3Result (XhrOutcome.load 403)
        = Except.error ("Upload failed with status " ++ toString 403)
    ∧ uploadToS3Result XhrOutcome.netError = Except.error "Upload failed" :=
  have h := transfer_progress_bounds_and_errors eventsW 403
    (by decide) (by omega)
  ⟨h.1 ((5 : ℚ) / (10 : ℚ) * 100) (by norm_num [uploadToS3Progress, eventsW]),
   h.2.1,
   h.2.2.1 (jsRound ((5 : ℚ) * 100 / (10 : ℚ)))
     (by norm_num [apiServiceProgress, eventsW]),
   h.2.2.2.1, h.2.2.2.2⟩

/-! ## REST calls: request in birdtag utils/api.js

```js
const headers = \x7b 'Content-Type': 'application/json', ...options.headers \x7d
let body = \x7b\x7d
if (options.body) \x7b
  try \x7b body = typeof options.body === 'string' ? JSON.parse(options.body) : options.body \x7d
  catch \x7b body = \x7b\x7d \x7d
\x7d
if (token && !body.token) \x7b body.token = token \x7d
const config = \x7b ...options, headers, body: JSON.stringify(body) \x7d
```

The caller body is modelled as absent, as an already parsed object, or as
a string whose JSON.parse result is an object or a failure (non-object
JSON bodies are outside the model).  The config body is kept as the object
that is stringified and sent.
-/

/-- The `options.body` argument of `request`. -/
inductive BodyInput : Type where
  | noBody : BodyInput
  | objBody : JsObj → BodyInput
  | strBody : Option JsObj → BodyInput
  deriving DecidableEq, Repr

/-- The `let body = ...` block: absent or unparseable bodies become the
empty object. -/
def resolveBody : BodyInput → JsObj
  | BodyInput.noBody => []
  | BodyInput.objBody o => o
  | BodyInput.strBody (some o) => o
  | BodyInput.strBody none => []

/-- JavaScript truthiness of a property value. -/
def jsTruthy : Option JsVal → Bool
  | none => false
  | some (JsVal.str s) => decide (s ≠ "")
  | some (JsVal.num n) => decide (n ≠ 0)

/-- Property assignment `o[k] = v`: update in place when the key exists,
append otherwise. -/
def setProp {V : Type} (o : List (String × V)) (k : String) (v : V) :
    List (String × V) :=
  match getObj o k with
  | none => o ++ [(k, v)]
  | some _ => o.map (fun p => if p.1 = k then (p.1, v) else p)

theorem getObj_map_update {V : Type} (o : List (String × V)) (k : String)
    (v : V) (h : getObj o k ≠ none) :
    getObj (o.map (fun p => if p.1 = k then (p.1, v) else p)) k = some v := by
  induction o with
  | nil => simp [getObj] at h
  | cons p rest ih =>
    by_cases hp : p.1 = k
    · simp [getObj, hp]
    · rw [getObj, if_neg hp] at h
      simp [getObj, hp, ih h]

theorem getObj_setProp {V : Type} (o : List (String × V)) (k : String)
    (v : V) : getObj (setProp o k v) k = some v := by
  unfold setProp
  cases h : getObj o k with
  | none =>
    rw [getObj_append, h]
    simp [getObj, Option.or]
  | some w =>
    exact getObj_map_update o k v (by rw [h]; exact Option.noConfusion)

structure RequestOptions where
  method : String
  headers : JsObj
  body : BodyInput
  deriving DecidableEq, Repr

structure RequestConfig where
  url : String
  method : String
  headers : JsObj
  body : JsObj
  deriving DecidableEq, Repr

/-- `request(endpoint, options)` with the stored token passed explicitly;
the returned record is the fetch config (its body still as the object
that is JSON.stringify-ed on the wire). -/
def request (baseUrl endpoint : String) (token : Option String)
    (opts : RequestOptions) : RequestConfig :=
  let headers := objMerge [("Content-Type", JsVal.str "application/json")]
    opts.headers
  let body0 := resolveBody opts.body
  let body1 :=
    if jsTruthyStr token && !(jsTruthy (getObj body0 "token")) then
      setProp body0 "token" (JsVal.str (token.getD ""))
    else body0
  { url := baseUrl ++ endpoint, method := opts.method,
    headers := headers, body := body1 }

/-- C10: for every call through `request()` — the method, including GET,
is passed through unchanged — if a bearer token is stored and the caller
body has no truthy token field, the JSON body actually sent contains the
token under the key `token`; the function adds no Authorization header
(the merged header object carries exactly the Authorization binding of
the caller, which the repository callers never set). -/
theorem request_sends_token_in_body (baseUrl endpoint t : String)
    (opts : RequestOptions) (ht : t ≠ "")
    (hb : jsTruthy (getObj (resolveBody opts.body) "token") = false) :
    getObj (request baseUrl endpoint (some t) opts).body "token"
      = some (JsVal.str t)
    ∧ (request baseUrl endpoint (some t) opts).method = opts.method
    ∧ getObj (request baseUrl endpoint (some t) opts).headers "Authorization"
      = getObj opts.headers "Authorization"
    ∧ (request baseUrl endpoint (some t) opts).url = baseUrl ++ endpoint := by
  have htok : jsTruthyStr (some t) = true := by
    simp [jsTruthyStr, ht]
  refine ⟨?_, rfl, ?_, rfl⟩
  · show getObj
      (if jsTruthyStr (some t)
          && !(jsTruthy (getObj (resolveBody opts.body) "token")) then
        setProp (resolveBody opts.body) "token" (JsVal.str ((some t).getD ""))
      else resolveBody opts.body) "token" = some (JsVal.str t)
    rw [htok, hb]
    simp [getObj_setProp]
  · show getObj (objMerge [("Content-Type", JsVal.str "application/json")]
      opts.headers) "Authorization" = getObj opts.headers "Authorization"
    rw [getObj_objMerge]
    cases h : getObj opts.headers "Authorization" <;> simp [getObj, Option.or]

/-- Witness for C10: a GET request with no caller body and a stored
token. -/
theorem request_sends_token_in_body_witness :
    getObj (request "https://api" "/files" (some "tok123")
        { method := "GET", headers := [], body := BodyInput.noBody }).body
        "token" = some (JsVal.str "tok123")
    ∧ (request "https://api" "/files" (some "tok123")
        { method := "GET", headers := [], body := BodyInput.noBody }).method
        = "GET"
    ∧ getObj (request "https://api" "/files" (some "tok123")
        { method := "GET", headers := [], body := BodyInput.noBody }).headers
        "Authorization"
        = getObj ([] : JsObj) "Authorization"
    ∧ (request "https://api" "/files" (some "tok123")
        { method := "GET", headers := [], body := BodyInput.noBody }).url
        = "https://api" ++ "/files" :=
  request_sends_token_in_body "https://api" "/files" "tok123"
    { method := "GET", headers := [], body := BodyInput.noBody }
    (by decide) rfl
